import Mathlib

/-!
Verification development for plenario's sensor-network API core
(`plenario/sensor_network/api/sensor_networks.py` and
`plenario/sensor_network/api/sensor_validator.py`).

The Python source is shallowly embedded: datetimes are natural numbers,
SQLAlchemy queries become pure query descriptors with an explicit relational
semantics over in-memory row lists, and the transactional session / job-status
collaborators become explicit state records.  Commit outcomes of external
stores are passed in as parameters so that both the success and the failure
path of the source's try/commit/except/rollback blocks are represented.
-/

set_option maxRecDepth 40000

namespace Plenario

/-! ### Python string primitives -/

/-- Lower-casing of a single ASCII character, as Python `str.lower` acts on the
identifiers used by this API (node ids, sensor names, feature names). -/
def pyCharLower (c : Char) : Char :=
  if 'A' ≤ c ∧ c ≤ 'Z' then Char.ofNat (c.toNat + 32) else c

/-- Python `str.lower` on a string. -/
def pyLower (s : String) : String :=
  String.mk (s.data.map pyCharLower)

/-- Python `str.split(sep)` on the character list of a string: splitting the
empty string gives `[[]]`, and every occurrence of the separator starts a new
(possibly empty) segment. -/
def pySplitCh (sep : Char) : List Char → List (List Char)
  | [] => [[]]
  | c :: cs =>
    if c = sep then [] :: pySplitCh sep cs
    else
      match pySplitCh sep cs with
      | [] => [[c]]
      | s :: ss => (c :: s) :: ss

/-- Python `str.split(sep)` producing strings. -/
def pySplitS (sep : Char) (s : String) : List String :=
  (pySplitCh sep s.data).map String.mk

/-- Python `str.split(sep)[0]`: the first segment of the split (always
defined, since `split` never returns an empty list). -/
def pySplitHead (sep : Char) (s : String) : String :=
  (pySplitS sep s).headD ""

/-! ### Observation rows and formatted records -/

/-- A row of one per-feature observation table.  Besides the fixed envelope
columns `node_id`, `datetime`, `sensor`, `meta_id`, each feature table carries
its own measured-property columns, held here as a name/value list. -/
structure Row where
  node_id : String
  sensor : String
  datetime : Nat
  meta_id : Nat
  props : List (String × Int)
deriving DecidableEq

/-- Embedding of `format_observation` (sensor_networks.py lines 313-326): the
fixed envelope fields plus a `results` map of every non-envelope column.  The
formatted datetime keeps the row's timestamp (ISO formatting is
order-preserving). -/
structure ObsRecord where
  node_id : String
  meta_id : Nat
  datetime : Nat
  sensor : String
  feature_of_interest : String
  results : List (String × Int)
deriving DecidableEq

def format_observation (tableName : String) (obs : Row) : ObsRecord :=
  { node_id := obs.node_id
    meta_id := obs.meta_id
    datetime := obs.datetime
    sensor := obs.sensor
    feature_of_interest := tableName
    results := obs.props }

/-! ### Validated arguments and the observation query builder -/

/-- The validated argument record (`args.data`) consumed by
`observation_query`; `none` models a JSON null / absent optional list. -/
structure ValidatedData where
  nodes : Option (List String)
  sensors : Option (List String)
  start_datetime : Nat
  end_datetime : Nat
  limit : Int
  offset : Int
deriving DecidableEq

/-- Python truthiness of an optional list (None and the empty list are falsy). -/
def pyTruthyList (v : Option (List String)) : Bool :=
  match v with
  | none => false
  | some l => !l.isEmpty

/-- Python truthiness of an integer: zero is falsy. -/
def pyTruthyInt (v : Int) : Bool := decide (v ≠ 0)

/-- Descriptor of the query assembled by `observation_query`: the datetime
window, the optional identity filters, and the optional limit/offset clauses. -/
structure Query where
  start_dt : Nat
  end_dt : Nat
  nodeFilter : Option (List String)
  sensorFilter : Option (List String)
  limitClause : Option Int
  offsetClause : Option Int
deriving DecidableEq

/-- Embedding of `observation_query` (sensor_networks.py lines 213-230): the
datetime window filters are always applied; the node/sensor filters and the
limit/offset clauses are applied only when the corresponding validated value
is truthy (`q.filter(...) if nodes else q`, `q.limit(limit) if
args.data["limit"] else q`, ...). -/
def observation_query (args : ValidatedData) : Query :=
  { start_dt := args.start_datetime
    end_dt := args.end_datetime
    nodeFilter := if pyTruthyList args.nodes then args.nodes else none
    sensorFilter := if pyTruthyList args.sensors then args.sensors else none
    limitClause := if pyTruthyInt args.limit then some args.limit else none
    offsetClause := if pyTruthyInt args.offset then some args.offset else none }

/-- Relational semantics of the built query against a table's rows: the
half-open datetime window, the case-insensitive node/sensor set filters, then
the OFFSET and LIMIT clauses. -/
def runQuery (q : Query) (rows : List Row) : List Row :=
  let rows := rows.filter
    (fun r => decide (q.start_dt ≤ r.datetime) && decide (r.datetime < q.end_dt))
  let rows := match q.nodeFilter with
    | some ns => rows.filter (fun r => ns.contains (pyLower r.node_id))
    | none => rows
  let rows := match q.sensorFilter with
    | some ss => rows.filter (fun r => ss.contains (pyLower r.sensor))
    | none => rows
  let rows := match q.offsetClause with
    | some o => rows.drop o.toNat
    | none => rows
  match q.limitClause with
  | some l => rows.take l.toNat
  | none => rows

/-- Caller-supplied observation arguments before validation; a `none` field is
one the caller omitted from the request. -/
structure SuppliedArgs where
  nodes : Option (List String)
  sensors : Option (List String)
  start_datetime : Option Nat
  end_datetime : Option Nat
  limit : Option Int
  offset : Option Int
deriving DecidableEq

/-- Embedding of the `Validator` field defaults (sensor_validator.py lines
73-84) as applied by `validate`: a missing or rejected value is substituted
with the field's default — in particular `limit` defaults to `1000` and
`offset` to `0`; `nodes` and `sensors` default to None; the datetime bounds
default to the now-dependent values passed in here as parameters. -/
def validate (startDefault endDefault : Nat) (s : SuppliedArgs) : ValidatedData :=
  { nodes := s.nodes
    sensors := s.sensors
    start_datetime := s.start_datetime.getD startDefault
    end_datetime := s.end_datetime.getD endDefault
    limit := s.limit.getD 1000
    offset := s.offset.getD 0 }

/-! ### Metadata records and the filter chain -/

/-- A sensor: its name and the values of its `observed_properties` map, each a
`"feature.property"` reference string. -/
structure SensorRec where
  name : String
  observed_properties : List String
deriving DecidableEq

/-- A node: id, deployed sensors, and a point location. -/
structure NodeRec where
  id : String
  sensors : List SensorRec
  location : Int × Int
deriving DecidableEq

/-- A sensor network: name and its nodes. -/
structure NetworkRec where
  name : String
  nodes : List NodeRec
deriving DecidableEq

/-- A feature of interest (the metadata record, naming a physical table). -/
structure FeatureRec where
  name : String
deriving DecidableEq

/-- The primary metadata store: the four tables queried by `filter_meta`. -/
structure MetaDB where
  networks : List NetworkRec
  nodes : List NodeRec
  sensors : List SensorRec
  features : List FeatureRec
deriving DecidableEq

/-- A resolved record list at one metadata level (the heterogeneous
`query.all()` results of `filter_meta`). -/
inductive Records where
  | networks : List NetworkRec → Records
  | nodes : List NodeRec → Records
  | sensors : List SensorRec → Records
  | features : List FeatureRec → Records
deriving DecidableEq

def Records.isEmpty : Records → Bool
  | .networks l => l.isEmpty
  | .nodes l => l.isEmpty
  | .sensors l => l.isEmpty
  | .features l => l.isEmpty

/-- The identifying strings of resolved records (network/sensor/feature names,
node ids) — what a message interpolating the records could expose. -/
def Records.names : Records → List String
  | .networks l => l.map (fun n => n.name)
  | .nodes l => l.map (fun n => n.id)
  | .sensors l => l.map (fun s => s.name)
  | .features l => l.map (fun f => f.name)

/-- A metadata filter argument as passed to `metadata`: Python None, a scalar
string (the network argument), or a list of strings. -/
inductive PyStrVal where
  | null
  | scalar : String → PyStrVal
  | list : List String → PyStrVal
deriving DecidableEq

/-- The scalar wrap in `filter_meta`: a non-list, non-None value is wrapped
into a one-element list. -/
def PyStrVal.toFilterList : PyStrVal → Option (List String)
  | .null => none
  | .scalar s => some [s]
  | .list l => some l

/-- Python falsiness of an optional list: None and `[]` are falsy. -/
def optListFalsy (v : Option (List String)) : Bool :=
  match v with
  | none => true
  | some l => l.isEmpty

/-- Feature names inherited from resolved sensors (sensor_networks.py lines
497-499): for every value of every sensor's `observed_properties`, take
`p.split(".")[0]`. -/
def features_valid_values (sensors : List SensorRec) : List String :=
  sensors.flatMap (fun s => s.observed_properties.map (fun p => pySplitHead '.' p))

/-- Embedding of `filter_meta` (sensor_networks.py lines 475-512).  The level's
base query is its metadata table (for "nodes", pre-filtered by the spatial
predicate when one is given); `valid_values` is inherited from the previous
level's resolved records; an explicit filter value is wrapped to a list; when
the filter is falsy the "network" level returns the whole table and other
levels fall back to `valid_values` (when nonempty); finally the records whose
name — id for nodes — lies in the filter list are returned. -/
def filter_meta (db : MetaDB) (meta_level : String) (upper : Option Records)
    (filter_values : PyStrVal) (geojson : Option (Int × Int → Bool)) : Records :=
  let valid_values : List String :=
    if meta_level = "nodes" then
      match upper with
      | some (.networks ns) => ns.flatMap (fun n => n.nodes.map (fun nd => nd.id))
      | _ => []
    else if meta_level = "sensors" then
      match upper with
      | some (.nodes ns) => ns.flatMap (fun n => n.sensors.map (fun s => s.name))
      | _ => []
    else if meta_level = "features" then
      match upper with
      | some (.sensors ss) => features_valid_values ss
      | _ => []
    else []
  let fv := filter_values.toFilterList
  if meta_level = "network" ∧ optListFalsy fv then
    .networks db.networks
  else
    let fv := if optListFalsy fv ∧ !valid_values.isEmpty then some valid_values else fv
    let fvl := fv.getD []
    if meta_level = "network" then
      .networks (db.networks.filter (fun n => fvl.contains n.name))
    else if meta_level = "nodes" then
      let base : List NodeRec := match geojson with
        | some g => db.nodes.filter (fun n => g n.location)
        | none => db.nodes
      .nodes (base.filter (fun n => fvl.contains n.id))
    else if meta_level = "sensors" then
      .sensors (db.sensors.filter (fun s => fvl.contains s.name))
    else
      .features (db.features.filter (fun f => fvl.contains f.name))

/-- The previous-level value interpolated into the empty-resolution message:
either a still-unresolved raw filter argument or already-resolved records
(`current_state[i - 1][1]` in the source). -/
inductive LevelVal where
  | raw : PyStrVal → LevelVal
  | resolved : Records → LevelVal
deriving DecidableEq

/-- The data interpolated into the empty-resolution message built in
`metadata` (lines 460-465): the previous level's key, the previous level's
value, and the requested target level. -/
structure ErrorInfo where
  upperLevel : String
  upperValues : LevelVal
  target : String
deriving DecidableEq

/-- The strings out of which the empty-resolution message is built. -/
def LevelVal.strings : LevelVal → List String
  | .raw .null => []
  | .raw (.scalar s) => [s]
  | .raw (.list l) => l
  | .resolved r => r.names

def ErrorInfo.strings (e : ErrorInfo) : List String :=
  e.upperLevel :: e.target :: e.upperValues.strings

/-- Result of `metadata`: resolved records at the target level, an
empty-resolution client error (`bad_request(msg)` / `ValueError(msg)`), or the
implicit None when the target matches no level. -/
inductive MetaResult where
  | ok : Records → MetaResult
  | err : ErrorInfo → MetaResult
  | nullReturn
deriving DecidableEq

/-- Embedding of `metadata` (sensor_networks.py lines 441-472), the loop over
the ordered levels network, nodes, sensors, features unrolled.  At each level
the resolved records replace the level's entry; an empty resolution produces
the error message built from `current_state[i - 1]` — for the first level,
Python index `-1` selects the LAST entry, the still-raw features filter. -/
def metadata (db : MetaDB) (target : String)
    (network nodes sensors features : PyStrVal)
    (geom : Option (Int × Int → Bool)) : MetaResult :=
  let networkRecs := filter_meta db "network" none network geom
  if networkRecs.isEmpty then .err ⟨"features", .raw features, target⟩
  else if target = "network" then .ok networkRecs
  else
    let nodeRecs := filter_meta db "nodes" (some networkRecs) nodes geom
    if nodeRecs.isEmpty then .err ⟨"network", .resolved networkRecs, target⟩
    else if target = "nodes" then .ok nodeRecs
    else
      let sensorRecs := filter_meta db "sensors" (some nodeRecs) sensors geom
      if sensorRecs.isEmpty then .err ⟨"nodes", .resolved nodeRecs, target⟩
      else if target = "sensors" then .ok sensorRecs
      else
        let featureRecs := filter_meta db "features" (some sensorRecs) features geom
        if featureRecs.isEmpty then .err ⟨"sensors", .resolved sensorRecs, target⟩
        else if target = "features" then .ok featureRecs
        else .nullReturn

/-! ### Fetching, formatting and time-sorting observation results -/

/-- The sort key relation used on formatted observations: comparison of the
parsed formatted datetimes (`data.sort(key=lambda x: parse(x["datetime"]))`). -/
def obsLE (a b : ObsRecord) : Prop := a.datetime ≤ b.datetime

instance : DecidableRel obsLE := fun a b => Nat.decLe a.datetime b.datetime

instance : IsTotal ObsRecord obsLE := ⟨fun a b => Nat.le_total a.datetime b.datetime⟩

instance : IsTrans ObsRecord obsLE := ⟨fun _ _ _ h1 h2 => Nat.le_trans h1 h2⟩

/-- The unsorted observation data of `run_observation_queries`: each
per-feature query is fetched independently and its rows formatted, in query
order. -/
def observation_data (queries : List (Query × String × List Row)) : List ObsRecord :=
  queries.flatMap (fun q => (runQuery q.1 q.2.2).map (format_observation q.2.1))

/-- Embedding of `run_observation_queries` (sensor_networks.py lines 350-361):
fetch and format every per-feature query, then sort the merged data by the
parsed formatted datetime (Python `list.sort` is a stable sort; modelled here
by a stable insertion sort). -/
def run_observation_queries (queries : List (Query × String × List Row)) : List ObsRecord :=
  List.insertionSort obsLE (observation_data queries)

/-! ### The chunked export pipeline -/

/-- The fixed export chunk size (`chunk_size = 1000.0`). -/
def chunk_size : Nat := 1000

/-- Payload of a persisted `DataDump` row: a JSON-serialized chunk of
formatted observations, or the final summary (worker ids and distinct feature
names; the echoed time bounds are opaque to the claims). -/
inductive DumpPayload where
  | rows : List ObsRecord → DumpPayload
  | meta : List String → List String → DumpPayload
deriving DecidableEq

/-- A `DataDump` row as constructed by the export pipeline: the originating
request (job ticket), the part number, the declared total part count, and the
payload. -/
structure DataDump where
  request : String
  part : Nat
  total : Nat
  data : DumpPayload
deriving DecidableEq

/-- The job's progress record `{"done": chunk_number, "total": chunk_count}`. -/
structure Progress where
  done : Nat
  total : Nat
deriving DecidableEq

/-- The transactional unit-of-work session of the metadata store: rows added
but not yet committed, and committed rows (in commit order). -/
structure Session where
  pending : List DataDump
  committed : List DataDump
deriving DecidableEq

def Session.add (s : Session) (d : DataDump) : Session :=
  { s with pending := s.pending ++ [d] }

def Session.commitApply (s : Session) : Session :=
  ⟨[], s.committed ++ s.pending⟩

def Session.rollback (s : Session) : Session :=
  { s with pending := [] }

/-- An exception raised by a failed commit. -/
inductive PyErr where
  | exc : Nat → PyErr
deriving DecidableEq

/-- The externally visible state touched by the export pipeline: the session
against the metadata store, the job's progress record, and the
cleanup-suppression flag TTL. -/
structure JobState where
  session : Session
  progress : Option Progress
  suppressTTL : Option Nat
deriving DecidableEq

/-- Embedding of `store_chunk` (sensor_networks.py lines 415-438): add the
chunk's `DataDump` row, commit — on failure roll back and re-raise (returned
as `some e`), leaving the job status untouched; on success update the job's
progress record and refresh the cleanup-suppression flag with TTL 10800.  The
outcome of the external commit is passed in as a parameter. -/
def store_chunk (commitOutcome : Except PyErr Unit) (chunk : List ObsRecord)
    (chunk_count chunk_number : Nat) (request_id : String) (st : JobState) :
    Option PyErr × JobState :=
  let sess := st.session.add ⟨request_id, chunk_number, chunk_count, DumpPayload.rows chunk⟩
  match commitOutcome with
  | .error e => (some e, { st with session := sess.rollback })
  | .ok _ =>
      (none,
        { session := sess.commitApply
          progress := some ⟨chunk_number, chunk_count⟩
          suppressTTL := some 10800 })

/-- Embedding of the summary-record persist at the end of
`get_observation_datadump` (sensor_networks.py lines 403-410): add the summary
`DataDump`, commit — on failure roll back and re-raise; no status update is
attached to this unit of work. -/
def commit_summary (commitOutcome : Except PyErr Unit) (dump : DataDump) (st : JobState) :
    Option PyErr × JobState :=
  let sess := st.session.add dump
  match commitOutcome with
  | .error e => (some e, { st with session := sess.rollback })
  | .ok _ => (none, { st with session := sess.commitApply })

/-- Natural-number ceiling division, embedding
`math.ceil(row_count / chunk_size)`. -/
def ceilDiv (a b : Nat) : Nat := (a + b - 1) / b

/-- Modelled from the spec: `windowed_query` (plenario.database, not under
src/) iterates the query's result rows in windowed order by the datetime
column (bounded-memory iteration of the same result set). -/
def windowed_query (q : Query) (rows : List Row) : List Row :=
  List.insertionSort (fun a b => a.datetime ≤ b.datetime) (runQuery q rows)

/-- Modelled from the spec: `fast_count` (plenario.database, not under src/)
returns the number of rows of the query (a count-only pass, not a fetch). -/
def fast_count (q : Query) (rows : List Row) : Nat :=
  (runQuery q rows).length

/-- Insertion into a Python set, modelled as first-occurrence order. -/
def pySetInsert (s : List String) (x : String) : List String :=
  if s.contains x then s else s ++ [x]

/-- Accumulator of the export loop: the in-memory buffer, the next part
number, and the external state. -/
structure DumpAcc where
  chunk : List ObsRecord
  chunk_number : Nat
  st : JobState
deriving DecidableEq

/-- One iteration of the export loop body (lines 385-391): append the
formatted row to the buffer; once the buffer length EXCEEDS `chunk_size`
(strict `>`), persist it as the next numbered part and reset the buffer. -/
def datadumpStep (chunk_count : Nat) (request_id : String)
    (acc : DumpAcc) (r : ObsRecord) : DumpAcc :=
  let chunk := acc.chunk ++ [r]
  if chunk.length > chunk_size then
    { chunk := []
      chunk_number := acc.chunk_number + 1
      st := (store_chunk (Except.ok ()) chunk chunk_count acc.chunk_number request_id acc.st).2 }
  else
    { acc with chunk := chunk }

/-- The chunking loop of `get_observation_datadump` (lines 380-394): fold
every streamed formatted row through the loop body, then flush any remaining
non-empty buffer as a final numbered part. -/
def datadumpChunks (chunk_count : Nat) (request_id : String)
    (allRows : List ObsRecord) (st0 : JobState) : JobState :=
  let fin := allRows.foldl (datadumpStep chunk_count request_id) ⟨[], 1, st0⟩
  if fin.chunk.length > 0 then
    (store_chunk (Except.ok ()) fin.chunk chunk_count fin.chunk_number request_id fin.st).2
  else fin.st

/-- Embedding of `get_observation_datadump` (sensor_networks.py lines
364-412) on the all-commits-succeed path: count total rows over all resolved
queries, derive `chunk_count = ceil(row_count / chunk_size)`, stream every
query's rows in windowed order through the chunking loop (parts numbered from
1), flush any remaining partial buffer as a final part, then persist the
summary record as part 0 with the distinct lower-cased feature names. -/
def get_observation_datadump (request_id worker_id : String)
    (queries : List (Query × String × List Row)) (st0 : JobState) : JobState :=
  let row_count := (queries.map (fun q => fast_count q.1 q.2.2)).sum
  let chunk_count := ceilDiv row_count chunk_size
  let features := queries.foldl (fun acc q => pySetInsert acc (pyLower q.2.1)) []
  let allRows : List ObsRecord :=
    queries.flatMap (fun q => (windowed_query q.1 q.2.2).map (format_observation q.2.1))
  (commit_summary (Except.ok ())
    ⟨request_id, 0, chunk_count, DumpPayload.meta [worker_id] features⟩
    (datadumpChunks chunk_count request_id allRows st0)).2

/-- The sizes of the numbered data parts committed for a job, in commit order
(the part-0 summary record carries no row chunk). -/
def partSizes (st : JobState) : List Nat :=
  st.session.committed.filterMap (fun d =>
    match d.data with
    | DumpPayload.rows l => some l.length
    | DumpPayload.meta _ _ => none)

/-! ### The aggregation endpoint's error categories -/

/-- An HTTP response: status code and body strings. -/
structure HttpResponse where
  status : Nat
  body : List String
deriving DecidableEq

/-- Modelled from the spec: `bad_request` (sensor_response.py, not under src/)
returns the generic validation-error client response with the field-level
error list (HTTP 400). -/
def bad_request (errors : List String) : HttpResponse :=
  ⟨400, errors⟩

/-- Embedding of `make_error` (plenario.api.response; called from src with
explicit status 422): an error response with the given message and status. -/
def make_error (msg : String) (status : Nat) : HttpResponse :=
  ⟨status, [msg]⟩

/-- The 200 JSON response of `jsonify`. -/
def jsonify_response (payload : List String) : HttpResponse :=
  ⟨200, payload⟩

/-- The validation outcome consumed by `get_aggregations`: the field-level
error list of the validated argument record. -/
structure ValidatorResult where
  errors : List String
deriving DecidableEq

/-- Embedding of `get_aggregations` (sensor_networks.py lines 185-210): a
non-empty validation error list short-circuits to `bad_request`; otherwise the
aggregate function is applied — a raised `ValueError` (syntactically proper
arguments, unprocessable query) is mapped to `make_error(msg, 422)`, and a
normal result is returned as the 200 JSON response. -/
def get_aggregations (validated : ValidatorResult)
    (aggOutcome : Except String (List String)) : HttpResponse :=
  if !validated.errors.isEmpty then bad_request validated.errors
  else
    match aggOutcome with
    | .error m => make_error m 422
    | .ok r => jsonify_response r

/-! ### Sanitizing validated arguments -/

/-- A value of the validated argument dictionary: a string, a list of strings,
an integer, or Python None. -/
inductive PyVal where
  | str : String → PyVal
  | list : List String → PyVal
  | int : Int → PyVal
  | null
deriving DecidableEq

/-- Embedding of `remove_null_keys` (lines 522-526): drop the entries whose
value is None. -/
def remove_null_keys (data : List (String × PyVal)) : List (String × PyVal) :=
  data.filter (fun kv => !(kv.2 == PyVal.null))

/-- One iteration of the `sanitize_validated_args` loop body for key `k`
(lines 544-552): `lower()` raises AttributeError on a non-string, which is
caught and skips the entry entirely; a string is lower-cased, split on commas
for the keys nodes/sensors/features, and then checked for `"+"` — on the split
LIST this is element membership and a hit makes `list.split` raise an uncaught
AttributeError, while on a remaining string it is substring containment and a
hit truncates to `split("+")[0]`. -/
def sanitizeEntry (k : String) (v : PyVal) : Except Unit PyVal :=
  match v with
  | .str s =>
    let s1 := pyLower s
    if k = "nodes" ∨ k = "sensors" ∨ k = "features" then
      let l := pySplitS ',' s1
      if l.contains "+" then Except.error ()
      else Except.ok (PyVal.list l)
    else if s1.data.contains '+' then
      Except.ok (PyVal.str (pySplitHead '+' s1))
    else Except.ok (PyVal.str s1)
  | v => Except.ok v

/-- The loop of `sanitize_validated_args` over the dictionary entries; an
uncaught exception aborts the whole call. -/
def sanitizeLoop : List (String × PyVal) → Except Unit (List (String × PyVal))
  | [] => Except.ok []
  | kv :: rest =>
    match sanitizeEntry kv.1 kv.2 with
    | Except.error e => Except.error e
    | Except.ok v =>
      match sanitizeLoop rest with
      | Except.error e => Except.error e
      | Except.ok out => Except.ok ((kv.1, v) :: out)

/-- Embedding of `sanitize_validated_args` (sensor_networks.py lines 542-553):
remove None-valued keys, then transform each remaining entry in place. -/
def sanitize_validated_args (data : List (String × PyVal)) :
    Except Unit (List (String × PyVal)) :=
  sanitizeLoop (remove_null_keys data)

/-! ### Spec-side comparison definitions -/

/-- Spec-side definition (for comparison with the code's `split(".")[0]`): the
portion of an observed-property reference string before the first `.`
separator. -/
def specFeaturePrefix (p : String) : String :=
  String.mk (p.data.takeWhile (fun c => !(c == '.')))

/-! ### Concrete inputs used by counterexamples and witnesses -/

/-- A request that omits every optional argument. -/
def omittedArgs : SuppliedArgs := ⟨none, none, none, none, none, none⟩

/-- Rows for the time-window witness. -/
def windowRows : List Row :=
  [⟨"a", "s0", 3, 0, []⟩, ⟨"b", "s0", 7, 0, []⟩, ⟨"c", "s0", 12, 0, []⟩]

/-- Validated arguments with window [5, 10) and no other filters or clauses. -/
def windowArgs : ValidatedData := ⟨none, none, 5, 10, 0, 0⟩

/-- A sensor of the demo metadata store. -/
def aotSensor : SensorRec := ⟨"tmp112", ["temperature.temperature"]⟩

/-- A node of the demo metadata store. -/
def aotNode : NodeRec := ⟨"004e", [aotSensor], (0, 0)⟩

/-- A network of the demo metadata store. -/
def aotNetwork : NetworkRec := ⟨"array_of_things", [aotNode]⟩

/-- A small concrete metadata store. -/
def demoDB : MetaDB := ⟨[aotNetwork], [aotNode], [aotSensor], [⟨"temperature"⟩]⟩

/-- An observation row of the demo feature table, with datetime `i`. -/
def demoRow (i : Nat) : Row := ⟨"node0", "sensor0", i, 0, []⟩

/-- 2000 rows (exactly 2 * chunk_size) with ascending datetimes. -/
def rows2000 : List Row := (List.range 2000).map demoRow

/-- The first 1001 of those rows. -/
def rowsA : List Row := (List.range 1001).map demoRow

/-- The remaining 999 rows. -/
def rowsB : List Row := (List.range 999).map (fun i => demoRow (1001 + i))

/-- 1001 rows (exactly chunk_size + 1) with ascending datetimes. -/
def rows1001 : List Row := (List.range 1001).map demoRow

/-- Query selecting all 2000 rows. -/
def q2000 : Query := ⟨0, 2000, none, none, none, none⟩

/-- Query selecting all 1001 rows. -/
def q1001 : Query := ⟨0, 1001, none, none, none, none⟩

/-- The initial job state: empty session, no progress record, no flag. -/
def job0 : JobState := ⟨⟨[], []⟩, none, none⟩

/-- The export pipeline run on exactly 2 * chunk_size rows. -/
def dump2000 : JobState :=
  get_observation_datadump "ticket" "worker0" [(q2000, "temperature", rows2000)] job0

/-- The export pipeline run on exactly chunk_size + 1 rows. -/
def dump1001 : JobState :=
  get_observation_datadump "ticket" "worker0" [(q1001, "temperature", rows1001)] job0

/-- The formatted stream of the first 1001 rows. -/
def partA : List ObsRecord := rowsA.map (format_observation "temperature")

/-- The formatted stream of the remaining 999 rows. -/
def partB : List ObsRecord := rowsB.map (format_observation "temperature")

/-- The formatted stream of all 1001 boundary-run rows. -/
def part1001 : List ObsRecord := rows1001.map (format_observation "temperature")

/-- Job state after the first stored part of the 2000-row run. -/
def stateA : JobState := (store_chunk (Except.ok ()) partA 2 1 "ticket" job0).2

/-- Job state after the second stored part of the 2000-row run. -/
def stateB : JobState := (store_chunk (Except.ok ()) partB 2 2 "ticket" stateA).2

/-- Job state after the single stored part of the 1001-row run. -/
def state1001 : JobState := (store_chunk (Except.ok ()) part1001 2 1 "ticket" job0).2

/-! ## Theorems -/

/-! ### Python split helper lemmas -/

theorem pySplitCh_ne_nil (sep : Char) (cs : List Char) : pySplitCh sep cs ≠ [] := by
  cases cs with
  | nil => simp [pySplitCh]
  | cons c cs =>
    simp only [pySplitCh]
    split
    · simp
    · cases h : pySplitCh sep cs <;> simp

theorem pySplitCh_headD (sep : Char) (cs : List Char) :
    (pySplitCh sep cs).headD [] = cs.takeWhile (fun c => !(c == sep)) := by
  induction cs with
  | nil => simp [pySplitCh, List.takeWhile]
  | cons c cs ih =>
    by_cases hc : c = sep
    · simp [pySplitCh, hc, List.takeWhile_cons]
    · have hb : (c == sep) = false := beq_eq_false_iff_ne.mpr hc
      simp only [pySplitCh, if_neg hc]
      cases h : pySplitCh sep cs with
      | nil => exact absurd h (pySplitCh_ne_nil sep cs)
      | cons s ss =>
        rw [h] at ih
        simp only [List.headD_cons] at ih
        simp [List.takeWhile_cons, hb, ih]

theorem pySplitHead_eq_takeWhile (sep : Char) (s : String) :
    pySplitHead sep s = String.mk (s.data.takeWhile (fun c => !(c == sep))) := by
  unfold pySplitHead pySplitS
  cases h : pySplitCh sep s.data with
  | nil => exact absurd h (pySplitCh_ne_nil sep s.data)
  | cons t ts =>
    have := pySplitCh_headD sep s.data
    rw [h] at this
    simp only [List.headD_cons] at this
    simp [this]

/-! ### C3: limit/offset clauses -/

/-- C3 counterexample: a request that omits `limit` still produces a built
query with a limit clause of 1000, because the validator substitutes the
default 1000 for the missing value and `observation_query` applies any truthy
limit.  This refutes the claim that limit/offset clauses appear only when the
caller explicitly supplied them. -/
theorem observation_query_omitted_limit_caps :
    (observation_query (validate 0 100 omittedArgs)).limitClause = some 1000
    ∧ some (1000 : Int) ≠ (none : Option Int) := by
  constructor
  · rfl
  · simp

/-- C3 (amended): a limit clause is applied iff the validated limit value is
nonzero — since the validator defaults an omitted `limit` to 1000, omitting it
still caps the query at 1000; an offset clause is applied iff the validated
offset is nonzero — the default 0 for an omitted `offset` adds no clause. -/
theorem observation_query_limit_offset_clauses (s : SuppliedArgs) (d1 d2 : Nat) :
    (observation_query (validate d1 d2 s)).limitClause
      = (match s.limit with
         | none => some 1000
         | some l => if l = 0 then none else some l)
    ∧ (observation_query (validate d1 d2 s)).offsetClause
      = (match s.offset with
         | none => none
         | some o => if o = 0 then none else some o) := by
  constructor
  · cases h : s.limit with
    | none => simp [observation_query, validate, h, pyTruthyInt]
    | some l =>
      by_cases hl : l = 0 <;>
        simp [observation_query, validate, h, pyTruthyInt, hl]
  · cases h : s.offset with
    | none => simp [observation_query, validate, h, pyTruthyInt]
    | some o =>
      by_cases ho : o = 0 <;>
        simp [observation_query, validate, h, pyTruthyInt, ho]

/-! ### C5: the half-open datetime window -/

/-- C5: with no node/sensor filters and no limit/offset clauses, the query
built by `observation_query` selects exactly the rows whose datetime `t`
satisfies `start <= t < end` — lower bound inclusive, upper bound strictly
exclusive. -/
theorem observation_query_half_open_window (args : ValidatedData) (rows : List Row)
    (hn : pyTruthyList args.nodes = false) (hs : pyTruthyList args.sensors = false)
    (hl : args.limit = 0) (ho : args.offset = 0) :
    runQuery (observation_query args) rows
      = rows.filter (fun r =>
          decide (args.start_datetime ≤ r.datetime)
            && decide (r.datetime < args.end_datetime)) := by
  simp [runQuery, observation_query, hn, hs, hl, ho, pyTruthyInt]

/-- Witness for C5 at a concrete window and row list. -/
theorem observation_query_half_open_window_witness :
    runQuery (observation_query windowArgs) windowRows
      = windowRows.filter (fun r =>
          decide ((5 : Nat) ≤ r.datetime) && decide (r.datetime < (10 : Nat))) :=
  observation_query_half_open_window windowArgs windowRows rfl rfl rfl rfl

/-! ### C6: merged observation results are time-sorted -/

/-- C6: the final response data of `run_observation_queries` is sorted
non-decreasing by the formatted datetime, and is a permutation of the merged
per-feature results, regardless of the order the independent per-feature
queries returned their rows in. -/
theorem run_observation_queries_time_sorted (queries : List (Query × String × List Row)) :
    List.Sorted obsLE (run_observation_queries queries)
    ∧ List.Perm (run_observation_queries queries) (observation_data queries) :=
  ⟨List.sorted_insertionSort obsLE (observation_data queries),
   List.perm_insertionSort obsLE (observation_data queries)⟩

/-! ### C7: failed commits roll back, re-raise and never advance progress -/

/-- C7: when the commit of a chunk fails, `store_chunk` rolls the session
back (nothing pending, committed rows unchanged), re-raises the original
exception, and leaves the job's progress record and cleanup-suppression flag
untouched; the final summary record's commit behaves the same way. -/
theorem store_chunk_commit_failure_rolls_back (e : PyErr) (chunk : List ObsRecord)
    (cc cn : Nat) (rid : String) (st : JobState) (d : DataDump) :
    (store_chunk (Except.error e) chunk cc cn rid st).1 = some e
    ∧ ((store_chunk (Except.error e) chunk cc cn rid st).2).session.pending = []
    ∧ ((store_chunk (Except.error e) chunk cc cn rid st).2).session.committed
        = st.session.committed
    ∧ ((store_chunk (Except.error e) chunk cc cn rid st).2).progress = st.progress
    ∧ ((store_chunk (Except.error e) chunk cc cn rid st).2).suppressTTL = st.suppressTTL
    ∧ (commit_summary (Except.error e) d st).1 = some e
    ∧ ((commit_summary (Except.error e) d st).2).session.pending = []
    ∧ ((commit_summary (Except.error e) d st).2).session.committed = st.session.committed
    ∧ ((commit_summary (Except.error e) d st).2).progress = st.progress := by
  simp [store_chunk, commit_summary, Session.add, Session.rollback]

/-! ### C8: unprocessable aggregation parameters map to 422 -/

/-- C8: for a syntactically valid aggregation request (empty validation error
list) whose aggregate function raises ValueError, `get_aggregations` returns
the distinct unprocessable-entity response (HTTP 422), which differs from the
generic validation-error response's status. -/
theorem get_aggregations_unprocessable_is_422 (v : ValidatorResult) (m : String)
    (h : v.errors = []) :
    (get_aggregations v (Except.error m)).status = 422
    ∧ ∀ es : List String,
        (get_aggregations v (Except.error m)).status ≠ (bad_request es).status := by
  simp [get_aggregations, h, make_error, bad_request]

/-- Witness for C8 at a concrete request. -/
theorem get_aggregations_unprocessable_is_422_witness :
    (get_aggregations ⟨[]⟩ (Except.error "no rows for these parameters")).status = 422
    ∧ ∀ es : List String,
        (get_aggregations ⟨[]⟩ (Except.error "no rows for these parameters")).status
          ≠ (bad_request es).status :=
  get_aggregations_unprocessable_is_422 ⟨[]⟩ "no rows for these parameters" rfl

/-! ### C9: inherited feature names are prefixes before the first dot -/

/-- C9: the feature-of-interest values inherited from resolved sensors are
exactly, for every value of every sensor's `observed_properties`, the
substring before the first `.` separator. -/
theorem features_valid_values_before_first_dot (sensors : List SensorRec) :
    features_valid_values sensors
      = sensors.flatMap (fun s => s.observed_properties.map specFeaturePrefix) := by
  simp only [features_valid_values, pySplitHead_eq_takeWhile]
  rfl

/-! ### C4: empty resolution at the nodes level -/

/-- C4 counterexample: filtering for the non-existent node id "zzz" does make
`metadata` return an empty-resolution error (not an empty success), but the
error is built from the UPSTREAM level — it names "network" and interpolates
the resolved network records — and the offending value "zzz" appears nowhere
in the data the message is built from. -/
theorem metadata_unknown_node_counterexample :
    metadata demoDB "nodes" (PyStrVal.scalar "array_of_things") (PyStrVal.list ["zzz"])
        PyStrVal.null PyStrVal.null none
      = MetaResult.err ⟨"network", LevelVal.resolved (Records.networks [aotNetwork]), "nodes"⟩
    ∧ "zzz" ∉ ErrorInfo.strings
        ⟨"network", LevelVal.resolved (Records.networks [aotNetwork]), "nodes"⟩
    ∧ "network" ≠ "nodes" := by
  refine ⟨by rfl, by decide, by decide⟩

/-- C4 (amended): whenever the network level resolves to a non-empty record
list but the nodes level resolves to no records (for example, a node filter
naming no existing node), `metadata` returns an empty-resolution client error
— not an empty-list success — whose message is built from the upstream level
name "network", the upstream resolved records, and the target level. -/
theorem metadata_empty_nodes_resolution (db : MetaDB)
    (network nodes sensors features : PyStrVal) (geom : Option (Int × Int → Bool))
    (h1 : (filter_meta db "network" none network geom).isEmpty = false)
    (h2 : (filter_meta db "nodes" (some (filter_meta db "network" none network geom))
            nodes geom).isEmpty = true) :
    metadata db "nodes" network nodes sensors features geom
      = MetaResult.err
          ⟨"network", LevelVal.resolved (filter_meta db "network" none network geom),
            "nodes"⟩ := by
  simp [metadata, h1, h2]

/-- Witness for C4's amended theorem at a concrete store and filter. -/
theorem metadata_empty_nodes_resolution_witness :
    metadata demoDB "nodes" (PyStrVal.scalar "array_of_things") (PyStrVal.list ["qqq"])
        PyStrVal.null PyStrVal.null none
      = MetaResult.err
          ⟨"network", LevelVal.resolved (Records.networks [aotNetwork]), "nodes"⟩ :=
  metadata_empty_nodes_resolution demoDB (PyStrVal.scalar "array_of_things")
    (PyStrVal.list ["qqq"]) PyStrVal.null PyStrVal.null none (by rfl) (by rfl)

/-! ### C10: sanitize transforms only string values -/

theorem sanitizeEntry_nonstring (k : String) (v : PyVal)
    (hv : ∀ s, v ≠ PyVal.str s) : sanitizeEntry k v = Except.ok v := by
  cases v with
  | str s => exact absurd rfl (hv s)
  | list l => rfl
  | int i => rfl
  | null => rfl

theorem sanitizeLoop_mem (l out : List (String × PyVal))
    (hok : sanitizeLoop l = Except.ok out) :
    ∀ k v, (k, v) ∈ l → (∀ s, v ≠ PyVal.str s) → (k, v) ∈ out := by
  induction l generalizing out with
  | nil => intro k v hmem; exact absurd hmem (List.not_mem_nil _)
  | cons kv rest ih =>
    intro k v hmem hv
    simp only [sanitizeLoop] at hok
    cases he : sanitizeEntry kv.1 kv.2 with
    | error e => rw [he] at hok; exact absurd hok (by simp)
    | ok v0 =>
      rw [he] at hok
      cases hr : sanitizeLoop rest with
      | error e => rw [hr] at hok; exact absurd hok (by simp)
      | ok out0 =>
        rw [hr] at hok
        simp only [Except.ok.injEq] at hok
        subst hok
        rcases List.mem_cons.mp hmem with heq | hmem2
        · have hkv : kv = (k, v) := heq.symm
          subst hkv
          have : sanitizeEntry k v = Except.ok v := sanitizeEntry_nonstring k v hv
          rw [this] at he
          simp only [Except.ok.injEq] at he
          subst he
          exact List.mem_cons_self _ _
        · exact List.mem_cons_of_mem _ (ih out0 hr k v hmem2 hv)

/-- C10: `sanitize_validated_args` transforms (lower-cases, comma-splits for
the keys nodes/sensors/features, plus-truncates) only entries whose values are
strings; an entry whose value is not a string — in particular a node list
supplied as a wrapped path parameter — is passed through unchanged, because
the `lower()` step raises AttributeError on it and the loop skips to the next
key. -/
theorem sanitize_validated_args_nonstring_passthrough
    (data out : List (String × PyVal))
    (hok : sanitize_validated_args data = Except.ok out) :
    ∀ k v, (k, v) ∈ data → (∀ s, v ≠ PyVal.str s) → v ≠ PyVal.null → (k, v) ∈ out := by
  intro k v hmem hv hnull
  apply sanitizeLoop_mem (remove_null_keys data) out hok k v _ hv
  unfold remove_null_keys
  refine List.mem_filter.mpr ⟨hmem, ?_⟩
  simpa using hnull

/-- Witness for C10: in a concrete validated argument record the wrapped node
list and the integer limit pass through `sanitize_validated_args` unchanged
(while the string-valued network entry is lower-cased). -/
theorem sanitize_validated_args_nonstring_passthrough_witness :
    ("nodes", PyVal.list ["Node47"])
      ∈ [("nodes", PyVal.list ["Node47"]), ("limit", PyVal.int 1000),
         ("network", PyVal.str "aot")] :=
  sanitize_validated_args_nonstring_passthrough
    [("nodes", PyVal.list ["Node47"]), ("limit", PyVal.int 1000),
     ("geom", PyVal.null), ("network", PyVal.str "AoT")]
    [("nodes", PyVal.list ["Node47"]), ("limit", PyVal.int 1000),
     ("network", PyVal.str "aot")]
    (by rfl) "nodes" (PyVal.list ["Node47"]) (by simp) (by simp) (by simp)

/-! ### C1 and C2: the export chunking loop -/

theorem datadumpStep_no_flush (cc : Nat) (rid : String) (chunk : List ObsRecord)
    (cn : Nat) (st : JobState) (r : ObsRecord) (h : chunk.length + 1 ≤ chunk_size) :
    datadumpStep cc rid ⟨chunk, cn, st⟩ r = ⟨chunk ++ [r], cn, st⟩ := by
  have hlen : ¬ ((chunk ++ [r]).length > chunk_size) := by
    simp only [List.length_append, List.length_cons, List.length_nil]
    omega
  simp [datadumpStep, hlen]
  omega

theorem datadumpStep_flush (cc : Nat) (rid : String) (chunk : List ObsRecord)
    (cn : Nat) (st : JobState) (r : ObsRecord) (h : chunk.length + 1 > chunk_size) :
    datadumpStep cc rid ⟨chunk, cn, st⟩ r
      = ⟨[], cn + 1,
          (store_chunk (Except.ok ()) (chunk ++ [r]) cc cn rid st).2⟩ := by
  have hlen : (chunk ++ [r]).length > chunk_size := by
    simp only [List.length_append, List.length_cons, List.length_nil]
    omega
  simp [datadumpStep, hlen]
  omega

theorem foldl_datadumpStep_no_flush (cc : Nat) (rid : String) (rows : List ObsRecord) :
    ∀ (chunk : List ObsRecord) (cn : Nat) (st : JobState),
      chunk.length + rows.length ≤ chunk_size →
      rows.foldl (datadumpStep cc rid) ⟨chunk, cn, st⟩ = ⟨chunk ++ rows, cn, st⟩ := by
  induction rows with
  | nil => intro chunk cn st _; simp
  | cons r rest ih =>
    intro chunk cn st h
    simp only [List.length_cons] at h
    rw [List.foldl_cons,
      datadumpStep_no_flush cc rid chunk cn st r (by omega)]
    rw [ih (chunk ++ [r]) cn st (by simp only [List.length_append]; simp; omega)]
    simp

theorem foldl_datadumpStep_flush_at_end (cc : Nat) (rid : String) (rows : List ObsRecord) :
    ∀ (chunk : List ObsRecord) (cn : Nat) (st : JobState),
      rows ≠ [] →
      chunk.length + rows.length = chunk_size + 1 →
      rows.foldl (datadumpStep cc rid) ⟨chunk, cn, st⟩
        = ⟨[], cn + 1, (store_chunk (Except.ok ()) (chunk ++ rows) cc cn rid st).2⟩ := by
  induction rows with
  | nil => intro chunk cn st hne _; exact absurd rfl hne
  | cons r rest ih =>
    intro chunk cn st _ h
    simp only [List.length_cons] at h
    cases rest with
    | nil =>
      rw [List.foldl_cons,
        datadumpStep_flush cc rid chunk cn st r
          (by simp only [List.length_nil] at h; omega)]
      simp
    | cons r2 rest2 =>
      rw [List.foldl_cons,
        datadumpStep_no_flush cc rid chunk cn st r
          (by simp only [List.length_cons] at h ⊢; omega)]
      rw [ih (chunk ++ [r]) cn st (by simp)
        (by simp only [List.length_append, List.length_cons, List.length_nil] at h ⊢; omega)]
      simp

theorem runQuery_full_window (N : Nat) (rows : List Row)
    (h : ∀ r ∈ rows, r.datetime < N) :
    runQuery ⟨0, N, none, none, none, none⟩ rows = rows := by
  simp only [runQuery]
  exact List.filter_eq_self.mpr (fun r hr => by simp [h r hr])

theorem windowed_query_of_sorted (q : Query) (rows : List Row)
    (hq : runQuery q rows = rows)
    (hs : List.Sorted (fun a b : Row => a.datetime ≤ b.datetime) rows) :
    windowed_query q rows = rows := by
  unfold windowed_query
  rw [hq]
  exact List.Sorted.insertionSort_eq hs

theorem range_map_demoRow_sorted (n : Nat) :
    List.Sorted (fun a b : Row => a.datetime ≤ b.datetime) ((List.range n).map demoRow) := by
  rw [List.Sorted, List.pairwise_map]
  exact List.pairwise_le_range n

theorem rows2000_datetimes (r : Row) (hr : r ∈ rows2000) : r.datetime < 2000 := by
  unfold rows2000 at hr
  rcases List.mem_map.mp hr with ⟨i, hi, rfl⟩
  exact List.mem_range.mp hi

theorem rows1001_datetimes (r : Row) (hr : r ∈ rows1001) : r.datetime < 1001 := by
  unfold rows1001 at hr
  rcases List.mem_map.mp hr with ⟨i, hi, rfl⟩
  exact List.mem_range.mp hi

theorem rows2000_split : rows2000 = rowsA ++ rowsB := by
  unfold rows2000 rowsA rowsB
  rw [show (2000 : Nat) = 1001 + 999 from rfl, List.range_add, List.map_append,
    List.map_map]
  rfl

theorem datadumpChunks_single_flush (cc : Nat) (rid : String) (A : List ObsRecord)
    (st0 : JobState) (hA : A.length = chunk_size + 1) :
    datadumpChunks cc rid A st0 = (store_chunk (Except.ok ()) A cc 1 rid st0).2 := by
  have hne : A ≠ [] := by
    intro h
    rw [h] at hA
    simp [chunk_size] at hA
  unfold datadumpChunks
  rw [foldl_datadumpStep_flush_at_end cc rid A [] 1 st0 hne (by simpa using hA)]
  simp

theorem datadumpChunks_two_parts (cc : Nat) (rid : String) (A B : List ObsRecord)
    (st0 : JobState) (hA : A.length = chunk_size + 1)
    (hBpos : 0 < B.length) (hBle : B.length ≤ chunk_size) :
    datadumpChunks cc rid (A ++ B) st0
      = (store_chunk (Except.ok ()) B cc 2 rid
          ((store_chunk (Except.ok ()) A cc 1 rid st0).2)).2 := by
  have hne : A ≠ [] := by
    intro h
    rw [h] at hA
    simp [chunk_size] at hA
  unfold datadumpChunks
  rw [List.foldl_append]
  rw [foldl_datadumpStep_flush_at_end cc rid A [] 1 st0 hne (by simpa using hA)]
  rw [foldl_datadumpStep_no_flush cc rid B [] (1 + 1)
    ((store_chunk (Except.ok ()) ([] ++ A) cc 1 rid st0).2) (by simpa using hBle)]
  simp [hBpos]

/-- C1: on a result set of exactly 2 * chunk_size = 2000 rows the pipeline
does persist 2 parts and final progress {done: 2, total: 2}, but the parts
have sizes 1001 and 999 — not chunk_size each — because the loop flushes only
once the buffer EXCEEDS chunk_size.  This refutes the claim that each part
contains exactly chunk_size formatted rows. -/
theorem datadump_exact_multiple_off_by_one :
    partSizes dump2000 = [1001, 999]
    ∧ dump2000.progress = some ⟨2, 2⟩
    ∧ ¬ (∀ sz ∈ partSizes dump2000, sz = chunk_size) := by
  have hrun : runQuery q2000 rows2000 = rows2000 :=
    runQuery_full_window 2000 rows2000 rows2000_datetimes
  have hsorted : List.Sorted (fun a b : Row => a.datetime ≤ b.datetime) rows2000 := by
    unfold rows2000
    exact range_map_demoRow_sorted 2000
  have hwin : windowed_query q2000 rows2000 = rows2000 :=
    windowed_query_of_sorted q2000 rows2000 hrun hsorted
  have hcount : fast_count q2000 rows2000 = 2000 := by
    unfold fast_count
    rw [hrun]
    unfold rows2000
    simp
  have hAlen : partA.length = chunk_size + 1 := by
    unfold partA rowsA
    simp [chunk_size]
  have hBlen : partB.length = 999 := by
    unfold partB rowsB
    simp
  have hstream : rows2000.map (format_observation "temperature") = partA ++ partB := by
    unfold partA partB
    rw [rows2000_split, List.map_append]
  have hchunks : datadumpChunks 2 "ticket" (partA ++ partB) job0 = stateB := by
    unfold stateB stateA
    exact datadumpChunks_two_parts 2 "ticket" partA partB job0 hAlen
      (by rw [hBlen]; decide) (by rw [hBlen]; decide)
  have hdump : dump2000
      = (commit_summary (Except.ok ())
          ⟨"ticket", 0, 2, DumpPayload.meta ["worker0"] ["temperature"]⟩ stateB).2 := by
    unfold dump2000 get_observation_datadump
    simp only [List.map_cons, List.map_nil, List.sum_cons, List.sum_nil, Nat.add_zero,
      List.foldl_cons, List.foldl_nil, List.flatMap_cons, List.flatMap_nil,
      List.append_nil]
    rw [hcount, show ceilDiv 2000 chunk_size = 2 from rfl, hwin, hstream, hchunks]
    rfl
  have hps : partSizes dump2000 = [1001, 999] := by
    rw [hdump]
    simp [partSizes, commit_summary, store_chunk, Session.add, Session.commitApply,
      stateB, stateA, job0, hAlen, hBlen, chunk_size]
  refine ⟨hps, ?_, ?_⟩
  · rw [hdump]
    simp [commit_summary, store_chunk, stateB, stateA, Session.add, Session.commitApply]
  · intro hall
    have h1 := hall 1001 (by rw [hps]; simp)
    simp [chunk_size] at h1

/-- C2: on a result set of exactly chunk_size + 1 = 1001 rows the pipeline
persists a SINGLE part of 1001 rows (the flush fires only when the buffer
exceeds chunk_size, and the loop ends with an empty buffer), while the
declared total is ceil(1001/1000) = 2, leaving progress stuck at
{done: 1, total: 2}.  This refutes the claim that exactly 2 parts (one full,
one of size 1) are produced. -/
theorem datadump_boundary_off_by_one :
    partSizes dump1001 = [1001]
    ∧ (partSizes dump1001).length = 1
    ∧ dump1001.progress = some ⟨1, 2⟩ := by
  have hrun : runQuery q1001 rows1001 = rows1001 :=
    runQuery_full_window 1001 rows1001 rows1001_datetimes
  have hsorted : List.Sorted (fun a b : Row => a.datetime ≤ b.datetime) rows1001 := by
    unfold rows1001
    exact range_map_demoRow_sorted 1001
  have hwin : windowed_query q1001 rows1001 = rows1001 :=
    windowed_query_of_sorted q1001 rows1001 hrun hsorted
  have hcount : fast_count q1001 rows1001 = 1001 := by
    unfold fast_count
    rw [hrun]
    unfold rows1001
    simp
  have hlen : part1001.length = chunk_size + 1 := by
    unfold part1001 rows1001
    simp [chunk_size]
  have hchunks : datadumpChunks 2 "ticket" part1001 job0 = state1001 := by
    unfold state1001
    exact datadumpChunks_single_flush 2 "ticket" part1001 job0 hlen
  have hdump : dump1001
      = (commit_summary (Except.ok ())
          ⟨"ticket", 0, 2, DumpPayload.meta ["worker0"] ["temperature"]⟩ state1001).2 := by
    unfold dump1001 get_observation_datadump
    simp only [List.map_cons, List.map_nil, List.sum_cons, List.sum_nil, Nat.add_zero,
      List.foldl_cons, List.foldl_nil, List.flatMap_cons, List.flatMap_nil,
      List.append_nil]
    rw [hcount, show ceilDiv 1001 chunk_size = 2 from rfl, hwin]
    rw [show rows1001.map (format_observation "temperature") = part1001 from rfl]
    rw [hchunks]
    rfl
  have hps : partSizes dump1001 = [1001] := by
    rw [hdump]
    simp [partSizes, commit_summary, store_chunk, Session.add, Session.commitApply,
      state1001, job0, hlen, chunk_size]
  refine ⟨hps, by rw [hps]; rfl, ?_⟩
  rw [hdump]
  simp [commit_summary, store_chunk, state1001, Session.add, Session.commitApply]

end Plenario
